import Mathlib

/-!
Verification of the local-code-interpreter execution core.

The definitions below are a shallow embedding of the Python source in
`src/local_code_interpreter/tools.py`, `shared.py` and `agent.py`:

* strings are modelled as `List Char` (Python `str` indexing/length is by
  code point, which `List Char` mirrors exactly);
* the child process, the sandbox runtime and the chat call are external
  collaborators, so their behaviour on one invocation is an explicit
  parameter (`ProcOutcome`, `SandboxResult` / `HLWorld`, `CallOutcome`);
* fallible steps (`open`, `os.dup`, `os.dup2`, `sandbox.run`, reading the
  capture file) are `Except` values injected through `HLWorld`, which lets
  every exception path of `_run_hyperlight` be traversed;
* the scratch directory is a list of paths, and the process-wide stdout
  file descriptor is the pair of booleans `stdoutRedirected` / `dupFdOpen`
  in `HLState`.
-/

namespace LocalCodeInterpreter

/-- `MAX_OUTPUT_SIZE = 10000` in `tools.py` (the 10KB truncation limit). -/
def MAX_OUTPUT_SIZE : Nat := 10000

/-- The literal truncation marker appended in `_run_python`:
`"\n... [output truncated]"`. -/
def truncationMarker : List Char := "\n... [output truncated]".data

/-- The truncation step of `_run_python` (tools.py lines 91-94):
`if len(output) > MAX_OUTPUT_SIZE: return output[:MAX_OUTPUT_SIZE] + marker`
else the output unchanged. -/
def truncateOutput (output : List Char) : List Char :=
  if MAX_OUTPUT_SIZE < output.length then
    output.take MAX_OUTPUT_SIZE ++ truncationMarker
  else
    output

/-- Behaviour of the child process spawned by `_run_python` on one call:
either it completes within the timeout with the given stdout and stderr
byte streams, or the `asyncio.wait_for` times out (`exitedWithinGrace`
records whether the killed process exited within the 5s grace wait). -/
inductive ProcOutcome : Type
  | completed (stdout stderr : List Char)
  | timedOut (exitedWithinGrace : Bool)

/-- What `_run_python` does about a timeout: `proc.kill()` is called
(forceful kill) and `proc.wait()` is awaited for at most 5 seconds. -/
structure TimeoutHandling where
  killSent : Bool
  graceSeconds : Nat
  deriving DecidableEq, Repr

/-- The timeout message of `_run_python`:
`f"Error: Execution timed out after {timeout}s"`. -/
def timeoutMessage (timeout : Nat) : List Char :=
  ("Error: Execution timed out after " ++ toString timeout ++ "s").data

/-- `_run_python` (tools.py lines 63-101), with the kill/grace handling
recorded.  On completion the result is stdout then stderr, truncated; on
timeout the process is killed, waited for up to 5s, and the timeout
message is returned whether or not it exited within the grace period. -/
def runPythonTrace (timeout : Nat) (o : ProcOutcome) :
    List Char × Option TimeoutHandling :=
  match o with
  | .completed stdout stderr => (truncateOutput (stdout ++ stderr), none)
  | .timedOut _ => (timeoutMessage timeout, some { killSent := true, graceSeconds := 5 })

/-- The string returned by `_run_python`. -/
def runPython (timeout : Nat) (o : ProcOutcome) : List Char :=
  (runPythonTrace timeout o).1

/-! ### The dispatcher `CodeExecutionTool._execute` -/

/-- The `environment` configured at tool construction
(`Literal["python", "hyperlight"]`). -/
inductive Environment : Type
  | python
  | hyperlight
  deriving DecidableEq

/-- The error string built by the `except` clause of `_execute`:
`f"Error executing code: {e}"`. -/
def errorExecutingCode (e : List Char) : List Char :=
  "Error executing code: ".data ++ e

/-- The literal substituted for an empty backend result in `_execute`. -/
def noOutputMessage : List Char := "(No output)".data

/-- The tail of `_execute`'s `try` block together with its `except` clause:
an exception from the backend becomes `errorExecutingCode`, an empty
returned string becomes `"(No output)"` (Python `if not result`), any other
string is returned as is. -/
def handleDispatchResult : Except (List Char) (List Char) → List Char
  | .error e => errorExecutingCode e
  | .ok r => if r.isEmpty then noOutputMessage else r

/-- `CodeExecutionTool._execute` (tools.py lines 287-322).  `ctor` is the
outcome of `self._get_sandbox()` (which re-raises construction failures,
caught here), and `backend` the outcome of the selected backend call; on
the python environment no sandbox is constructed. -/
def executeCode (env : Environment) (ctor : Except (List Char) Unit)
    (backend : Except (List Char) (List Char)) : List Char :=
  match env with
  | .hyperlight =>
    match ctor with
    | .error e => errorExecutingCode e
    | .ok _ => handleDispatchResult backend
  | .python => handleDispatchResult backend

/-- Observable trace of one `_execute` call on the python environment:
the returned string and whether a child process was spawned. -/
structure ProcessExecTrace where
  output : List Char
  spawnedProcess : Bool

/-- `_execute` on the python environment: the code string is handed
directly to `_run_python`, which spawns the subprocess unconditionally —
`_execute` takes no language argument and performs no validation on `code`
before the spawn; `code`'s effect is entirely inside the child process,
abstracted by `o`. -/
def executeProcessBackend (timeout : Nat) (code : List Char) (o : ProcOutcome) :
    ProcessExecTrace :=
  { output := handleDispatchResult (.ok (runPython timeout o)),
    spawnedProcess := true }

/-! ### The hyperlight VM-sandbox backend `_run_hyperlight` -/

/-- Python's `str.strip()` whitespace set. -/
def pyIsSpace (c : Char) : Bool :=
  c == ' ' || c == '\t' || c == '\n' || c == '\r' || c == '\x0b' || c == '\x0c'

/-- Python's `str.strip()`: drop leading and trailing whitespace. -/
def pyStrip (s : List Char) : List Char :=
  ((s.dropWhile pyIsSpace).reverse.dropWhile pyIsSpace).reverse

/-- The extension choice of `_run_hyperlight` (tools.py line 125):
`extension = "py" if language == "python" else "js"`.  The language is a
runtime string; every value other than `"python"` takes the `else` arm. -/
def extensionFor (language : List Char) : List Char :=
  if language = "python".data then "py".data else "js".data

/-- `workload_dir = os.path.join(tmp_directory, "hyperlight-workloads")`. -/
def workloadDirOf (tmpDir : List Char) : List Char :=
  tmpDir ++ "/hyperlight-workloads".data

/-- The workload file path: `workload_dir / f"workload_{uuid}.{extension}"`. -/
def workloadPathOf (tmpDir language uuid1 : List Char) : List Char :=
  workloadDirOf tmpDir ++ "/workload_".data ++ uuid1 ++ ".".data ++ extensionFor language

/-- The stdout capture file path: `tmp_directory / f"stdout_{uuid}.txt"`. -/
def capturePathOf (tmpDir uuid2 : List Char) : List Char :=
  tmpDir ++ "/stdout_".data ++ uuid2 ++ ".txt".data

/-- The sandbox runtime's `WorkloadResult`: a success flag and an optional
error text. -/
structure SandboxResult where
  success : Bool
  error : Option (List Char)

/-- `result.error or "Unknown error"`: Python `or` falls back when the
error is `None` or the empty string. -/
def orUnknownError : Option (List Char) → List Char
  | none => "Unknown error".data
  | some e => if e.isEmpty then "Unknown error".data else e

/-- `f"Error during sandbox execution: {e}"` (tools.py line 165). -/
def sandboxErrorMessage (e : List Char) : List Char :=
  "Error during sandbox execution: ".data ++ e

/-- `f"Execution failed: {error_msg}"` (tools.py line 161). -/
def executionFailedMessage (detail : List Char) : List Char :=
  "Execution failed: ".data ++ detail

/-- The literal returned on success with empty captured stdout. -/
def successFallbackMessage : List Char := "Execution completed successfully.".data

/-- Outcome of each fallible step of one `_run_hyperlight` call, injected
as parameters so that every exception path can be traversed: writing the
workload file, `os.dup(1)`, opening the capture file, `os.dup2(capture, 1)`,
`sandbox.run(...)`, and reading the capture file back. -/
structure HLWorld where
  writeStep : Except (List Char) Unit
  dupStep : Except (List Char) Unit
  openCaptureStep : Except (List Char) Unit
  redirectStep : Except (List Char) Unit
  runStep : Except (List Char) SandboxResult
  readStep : Except (List Char) (List Char)

/-- Process-level state touched by `_run_hyperlight`: the files present in
the scratch directory, whether fd 1 currently points at the capture file
instead of the original stdout, and whether the `os.dup(1)` duplicate is
still open. -/
structure HLState where
  files : List (List Char)
  stdoutRedirected : Bool
  dupFdOpen : Bool

/-- `os.remove` guarded by `os.path.exists`: drop the path from the file
list (no-op when absent). -/
def removeFile (p : List Char) (fs : List (List Char)) : List (List Char) :=
  fs.filter (fun q => q != p)

/-- Observable trace of one `_run_hyperlight` call. -/
structure HLTrace where
  output : List Char
  state : HLState
  sandboxInvoked : Bool

/-- `open(p, "w")` creates the file. -/
def fsCreate (p : List Char) (st : HLState) : HLState :=
  { st with files := p :: st.files }

/-- The `if os.path.exists(p): os.remove(p)` cleanup pattern. -/
def fsRemove (p : List Char) (st : HLState) : HLState :=
  { st with files := removeFile p st.files }

/-- `os.dup2(capture, 1)` / `os.dup2(original, 1)`: point fd 1 at the
capture file or back at the original stdout. -/
def setRedirected (b : Bool) (st : HLState) : HLState :=
  { st with stdoutRedirected := b }

/-- `os.dup(1)` opens the saved duplicate; `os.close` closes it. -/
def setDupOpen (b : Bool) (st : HLState) : HLState :=
  { st with dupFdOpen := b }

/-- Result of the region guarded by the inner `try`/`finally` of
`_run_hyperlight` (tools.py lines 136-147): either the exception that
escaped it, or the sandbox result together with the raw capture-file
contents; plus the state at exit and whether `sandbox.run` was reached. -/
structure HLInner where
  outcome : Except (List Char) (SandboxResult × List Char)
  state : HLState
  invoked : Bool

/-- `_run_hyperlight` (tools.py lines 104-172), as an explicit traversal of
its `try`/`finally` nesting in source order.  The workload `open(...,"w")`
creates the file even when the write then fails; the capture `open(...,"w")`
creates the capture file even when the `os.dup2` redirect then fails.  The
`try`/`finally` around `sandbox.run` (lines 140-144) restores fd 1 on both
exits; the inner `finally` (lines 148-154) closes the duplicate and removes
the capture file; the outer `except` (lines 163-165) converts any escaped
exception into `sandboxErrorMessage`; the outer `finally` (lines 167-172)
removes the workload file on every path. -/
def runHyperlight (language code uuid1 uuid2 tmpDir : List Char)
    (w : HLWorld) (fs0 : List (List Char)) : HLTrace :=
  let workloadPath := workloadPathOf tmpDir language uuid1
  let capturePath := capturePathOf tmpDir uuid2
  let st0 : HLState := { files := fs0, stdoutRedirected := false, dupFdOpen := false }
  let afterTry : HLTrace :=
    match w.writeStep with
    | .error e =>
      { output := sandboxErrorMessage e, state := fsCreate workloadPath st0,
        sandboxInvoked := false }
    | .ok _ =>
      let st1 := fsCreate workloadPath st0
      match w.dupStep with
      | .error e =>
        { output := sandboxErrorMessage e, state := st1, sandboxInvoked := false }
      | .ok _ =>
        let st2 := setDupOpen true st1
        let inner : HLInner :=
          match w.openCaptureStep with
          | .error e => { outcome := .error e, state := st2, invoked := false }
          | .ok _ =>
            let st3 := fsCreate capturePath st2
            match w.redirectStep with
            | .error e => { outcome := .error e, state := st3, invoked := false }
            | .ok _ =>
              let st4 := setRedirected true st3
              match w.runStep with
              | .error e =>
                { outcome := .error e, state := setRedirected false st4, invoked := true }
              | .ok result =>
                let st5 := setRedirected false st4
                match w.readStep with
                | .error e => { outcome := .error e, state := st5, invoked := true }
                | .ok raw => { outcome := .ok (result, raw), state := st5, invoked := true }
        let stF := fsRemove capturePath (setDupOpen false inner.state)
        match inner.outcome with
        | .error e =>
          { output := sandboxErrorMessage e, state := stF, sandboxInvoked := inner.invoked }
        | .ok (result, raw) =>
          let captured := pyStrip raw
          let out :=
            if result.success then
              if captured.isEmpty then successFallbackMessage else captured
            else
              executionFailedMessage (orUnknownError result.error)
          { output := out, state := stF, sandboxInvoked := inner.invoked }
  { afterTry with state := fsRemove workloadPath afterTry.state }

/-- The world in which every step succeeds, the sandbox returns `result`,
and the capture file holds `raw`. -/
def allOkWorld (result : SandboxResult) (raw : List Char) : HLWorld :=
  { writeStep := .ok (), dupStep := .ok (), openCaptureStep := .ok (),
    redirectStep := .ok (), runStep := .ok result, readStep := .ok raw }

/-! ### The retry middleware `RetryOnRateLimitMiddleware.process` (shared.py) -/

/-- Does `pattern` (already lowercase) match at position 0 of `msg`,
comparing case-insensitively?  This is `re.match` of a literal alternative
under `(?i)`: the characters of `msg` are folded to lowercase and compared
one by one from the start. -/
def matchesAtStart : List Char → List Char → Bool
  | [], _ => true
  | _ :: _, [] => false
  | p :: ps, c :: cs => (p == c.toLower) && matchesAtStart ps cs

/-- `retry_if_exception_message(match=r"(?i)(too many requests|429)")`:
`tenacity` applies `re.match`, so the pattern must match at the start of
`str(exception)` — an exception message merely containing the token later
is not retried. -/
def isRateLimitMessage (msg : List Char) : Bool :=
  matchesAtStart "too many requests".data msg || matchesAtStart "429".data msg

/-- Outcome of one attempt of the wrapped call `next(context)`. -/
inductive CallOutcome : Type
  | success
  | failure (msg : List Char)

/-- The attempt loop of the `@retry` decorator in
`RetryOnRateLimitMiddleware.process`, with
`stop=stop_after_attempt(stopAfter)` and `reraise=True`:
attempt `attempt` runs; on success the loop returns; on failure it retries
exactly when the message matches the rate-limit pattern and fewer than
`stopAfter` attempts have been made, and otherwise re-raises the original
error.  Returns the number of the last attempt made together with the
final outcome. -/
def retryAttempts (stopAfter : Nat) (outcomes : Nat → CallOutcome) (attempt : Nat) :
    Nat × Except (List Char) Unit :=
  match outcomes attempt with
  | .success => (attempt, .ok ())
  | .failure msg =>
    if h : isRateLimitMessage msg = true ∧ attempt < stopAfter then
      retryAttempts stopAfter outcomes (attempt + 1)
    else
      (attempt, .error msg)
termination_by stopAfter - attempt
decreasing_by exact Nat.sub_succ_lt_self _ _ h.2

/-- `RetryOnRateLimitMiddleware.process` with `max_retries = maxRetries`:
the decorator is built with `stop_after_attempt(max_retries + 1)` and the
loop starts at attempt 1. -/
def middlewareProcess (maxRetries : Nat) (outcomes : Nat → CallOutcome) :
    Nat × Except (List Char) Unit :=
  retryAttempts (maxRetries + 1) outcomes 1

/-! ### The streaming retry backoff `run_streaming_with_retry` (agent.py) -/

/-- `random.uniform(a, b)` at draw `u ∈ [0, 1]`. -/
def uniformDraw (a b u : ℚ) : ℚ := a + u * (b - a)

/-- The base wait of `run_streaming_with_retry` (agent.py line 326):
`wait_time = min(min_wait * (2 ** (attempt - 1)), max_wait)`. -/
def backoffBase (minWait maxWait : ℚ) (attempt : Nat) : ℚ :=
  min (minWait * 2 ^ (attempt - 1)) maxWait

/-- The full wait of `run_streaming_with_retry` (agent.py lines 326-327):
the base wait plus `random.uniform(0, wait_time * 0.1)`, the uniform draw
modelled by `u ∈ [0, 1]`. -/
def streamingBackoffWait (minWait maxWait : ℚ) (attempt : Nat) (u : ℚ) : ℚ :=
  let waitTime := backoffBase minWait maxWait attempt
  waitTime + uniformDraw 0 (waitTime * (1 / 10)) u

/-! ## Theorems -/

/-- C2: on a timeout, the process backend kills the child forcefully, waits
a fixed 5-second grace period, and — whether or not the child exited within
that grace period — returns exactly
`"Error: Execution timed out after {N}s"`. -/
theorem runPython_timeout_result (timeout : Nat) (exitedWithinGrace : Bool) :
    runPythonTrace timeout (.timedOut exitedWithinGrace) =
      (("Error: Execution timed out after " ++ toString timeout ++ "s").data,
        some { killSent := true, graceSeconds := 5 }) := rfl

/-- C3: the truncation step returns outputs of length at most
`MAX_OUTPUT_SIZE` unchanged, replaces longer ones by their first
`MAX_OUTPUT_SIZE` characters followed by the literal marker, and therefore
always returns at most `MAX_OUTPUT_SIZE + truncationMarker.length`
characters. -/
theorem truncateOutput_spec (raw : List Char) :
    (raw.length ≤ MAX_OUTPUT_SIZE → truncateOutput raw = raw) ∧
    (MAX_OUTPUT_SIZE < raw.length →
      truncateOutput raw = raw.take MAX_OUTPUT_SIZE ++ truncationMarker) ∧
    (truncateOutput raw).length ≤ MAX_OUTPUT_SIZE + truncationMarker.length := by
  refine ⟨fun h => ?_, fun h => ?_, ?_⟩
  · simp [truncateOutput, Nat.not_lt.mpr h]
  · simp [truncateOutput, h]
  · by_cases h : MAX_OUTPUT_SIZE < raw.length
    · simp only [truncateOutput, if_pos h, List.length_append, List.length_take]
      omega
    · simp only [truncateOutput, if_neg h]
      exact Nat.le_trans (Nat.not_lt.mp h) (Nat.le_add_right _ _)

/-- Witness for C3 at a concrete short input. -/
theorem truncateOutput_spec_witness :
    truncateOutput "hello".data = "hello".data :=
  (truncateOutput_spec "hello".data).1 (by decide)

/-- C1: `CodeExecutionTool._execute` never returns an empty string: an
exception from the selected backend, or from sandbox-handle construction,
becomes `"Error executing code: {e}"`, an empty backend result becomes
`"(No output)"`, and every returned string is non-empty. -/
theorem executeCode_total_nonempty (env : Environment)
    (ctor : Except (List Char) Unit) (backend : Except (List Char) (List Char)) :
    executeCode env ctor backend ≠ [] ∧
    (∀ e, backend = .error e → (env = .python ∨ ctor = .ok ()) →
      executeCode env ctor backend = errorExecutingCode e) ∧
    (∀ e, env = .hyperlight → ctor = .error e →
      executeCode env ctor backend = errorExecutingCode e) ∧
    (backend = .ok [] → (env = .python ∨ ctor = .ok ()) →
      executeCode env ctor backend = noOutputMessage) := by
  have hne : ∀ b, handleDispatchResult b ≠ [] := by
    intro b
    match b with
    | .error e => simp [handleDispatchResult, errorExecutingCode]
    | .ok r =>
      by_cases hr : r.isEmpty
      · simp [handleDispatchResult, hr, noOutputMessage]
      · simp only [handleDispatchResult, if_neg hr]
        simpa [List.isEmpty_iff] using hr
  refine ⟨?_, ?_, ?_, ?_⟩
  · cases env with
    | python => exact hne backend
    | hyperlight =>
      cases ctor with
      | error e => simp [executeCode, errorExecutingCode]
      | ok u => exact hne backend
  · rintro e rfl hsel
    rcases hsel with h | h
    · subst h; rfl
    · cases env with
      | python => rfl
      | hyperlight => rw [h]; rfl
  · rintro e rfl rfl
    rfl
  · rintro rfl hsel
    rcases hsel with h | h
    · subst h; rfl
    · cases env with
      | python => rfl
      | hyperlight => rw [h]; rfl

/-- Witness for C1: a backend exception on the python environment is
converted to the descriptive error string. -/
theorem executeCode_total_nonempty_witness :
    executeCode .python (.ok ()) (.error "boom".data) =
      errorExecutingCode "boom".data :=
  (executeCode_total_nonempty .python (.ok ()) (.error "boom".data)).2.1
    "boom".data rfl (Or.inl rfl)

/-- A removed path is absent from the file list. -/
theorem not_mem_removeFile (p : List Char) (fs : List (List Char)) :
    p ∉ removeFile p fs := by
  simp [removeFile, List.mem_filter]

/-- C5: after any `_run_hyperlight` call — whatever combination of step
successes, step failures and sandbox outcomes occurred — the workload file
is no longer present in the scratch directory: the outer `finally` removes
it on every path. -/
theorem runHyperlight_no_workload_left (language code u1 u2 tmp : List Char)
    (w : HLWorld) (fs0 : List (List Char)) :
    workloadPathOf tmp language u1 ∉
      (runHyperlight language code u1 u2 tmp w fs0).state.files :=
  not_mem_removeFile _ _

/-- C6: the result mapping of `_run_hyperlight` when the sandbox call
completes: success with non-empty trimmed captured stdout returns exactly
that text, success with empty trimmed text returns the literal success
message, and failure returns `"Execution failed: {detail}"` where the
detail falls back to `"Unknown error"` when the runtime supplied none. -/
theorem runHyperlight_result_mapping (language code u1 u2 tmp : List Char)
    (fs0 : List (List Char)) (result : SandboxResult) (raw : List Char) :
    (result.success = true → pyStrip raw ≠ [] →
      (runHyperlight language code u1 u2 tmp (allOkWorld result raw) fs0).output
        = pyStrip raw) ∧
    (result.success = true → pyStrip raw = [] →
      (runHyperlight language code u1 u2 tmp (allOkWorld result raw) fs0).output
        = successFallbackMessage) ∧
    (result.success = false →
      (runHyperlight language code u1 u2 tmp (allOkWorld result raw) fs0).output
        = executionFailedMessage (orUnknownError result.error)) ∧
    orUnknownError none = "Unknown error".data ∧
    (∀ e, e ≠ [] → orUnknownError (some e) = e) := by
  refine ⟨?_, ?_, ?_, rfl, ?_⟩
  · intro hs hne
    have hie : (pyStrip raw).isEmpty = false := by
      simpa [List.isEmpty_iff] using hne
    simp [runHyperlight, allOkWorld, hs, hie]
  · intro hs he
    simp [runHyperlight, allOkWorld, hs, he]
  · intro hs
    simp [runHyperlight, allOkWorld, hs]
  · intro e he
    have hie : e.isEmpty = false := by simpa [List.isEmpty_iff] using he
    simp [orUnknownError, hie]

/-- Witness for C6: a successful javascript run whose capture file holds
`" 4\n"` returns the trimmed text `"4"`. -/
theorem runHyperlight_result_mapping_witness :
    (runHyperlight "javascript".data "console.log(2+2)".data "w1".data "c1".data
        "/tmp".data (allOkWorld { success := true, error := none } " 4\n".data)
        []).output = "4".data := by
  have h := (runHyperlight_result_mapping "javascript".data "console.log(2+2)".data
      "w1".data "c1".data "/tmp".data [] { success := true, error := none }
      " 4\n".data).1 rfl (by decide)
  rw [h]
  decide

/-- C10: `_run_hyperlight` is total at its boundary: every injected
exception — in the workload write, the fd redirection, or the sandbox
invocation — is converted into `"Error during sandbox execution: {e}"`,
and on every path the original stdout file descriptor is restored
(`stdoutRedirected = false`) and its duplicate closed (`dupFdOpen = false`)
before the function returns. -/
theorem runHyperlight_exception_safety (language code u1 u2 tmp : List Char)
    (w : HLWorld) (fs0 : List (List Char)) :
    (runHyperlight language code u1 u2 tmp w fs0).state.stdoutRedirected = false ∧
    (runHyperlight language code u1 u2 tmp w fs0).state.dupFdOpen = false ∧
    (∀ e, w.writeStep = .error e →
      (runHyperlight language code u1 u2 tmp w fs0).output = sandboxErrorMessage e) ∧
    (∀ e, w.writeStep = .ok () → w.dupStep = .ok () → w.openCaptureStep = .ok () →
      w.redirectStep = .error e →
      (runHyperlight language code u1 u2 tmp w fs0).output = sandboxErrorMessage e) ∧
    (∀ e, w.writeStep = .ok () → w.dupStep = .ok () → w.openCaptureStep = .ok () →
      w.redirectStep = .ok () → w.runStep = .error e →
      (runHyperlight language code u1 u2 tmp w fs0).output = sandboxErrorMessage e) := by
  obtain ⟨ws, ds, os, rs, runs, reads⟩ := w
  refine ⟨?_, ?_, ?_, ?_, ?_⟩
  · cases ws <;> cases ds <;> cases os <;> cases rs <;> cases runs <;> cases reads <;>
      simp [runHyperlight, fsRemove, fsCreate, setDupOpen, setRedirected]
  · cases ws <;> cases ds <;> cases os <;> cases rs <;> cases runs <;> cases reads <;>
      simp [runHyperlight, fsRemove, fsCreate, setDupOpen, setRedirected]
  · rintro e rfl; rfl
  · rintro e rfl rfl rfl rfl; rfl
  · rintro e rfl rfl rfl rfl rfl; rfl

/-- Witness for C10: a sandbox invocation that raises `"vm crashed"` is
reported as the descriptive error string. -/
theorem runHyperlight_exception_safety_witness :
    (runHyperlight "javascript".data "x".data "w1".data "c1".data "/tmp".data
        { writeStep := .ok (), dupStep := .ok (), openCaptureStep := .ok (),
          redirectStep := .ok (), runStep := .error "vm crashed".data,
          readStep := .ok [] } []).output =
      sandboxErrorMessage "vm crashed".data :=
  (runHyperlight_exception_safety "javascript".data "x".data "w1".data "c1".data
      "/tmp".data
      { writeStep := .ok (), dupStep := .ok (), openCaptureStep := .ok (),
        redirectStep := .ok (), runStep := .error "vm crashed".data,
        readStep := .ok [] } []).2.2.2.2 "vm crashed".data rfl rfl rfl rfl rfl

/-- C7 counterexample: on the process backend there is no per-call language
validation at all — `_execute` takes only `code`.  Submitting javascript
source spawns the subprocess (contradicting "fails fast before any process
is spawned") and returns the child's own stderr, not an error naming the
requested language and the alternative backend. -/
theorem executeProcessBackend_counterexample :
    (executeProcessBackend 30 "console.log(2+2)".data
      (.completed [] "SyntaxError: invalid syntax".data)).spawnedProcess = true ∧
    (executeProcessBackend 30 "console.log(2+2)".data
      (.completed [] "SyntaxError: invalid syntax".data)).output =
      "SyntaxError: invalid syntax".data := by
  exact ⟨rfl, by decide⟩

/-- C7 amended: the tool surface takes only the code string; every call on
the process backend unconditionally spawns the subprocess and returns its
(post-processed) output — no language check ever intervenes. -/
theorem executeProcessBackend_always_spawns (timeout : Nat) (code : List Char)
    (o : ProcOutcome) :
    (executeProcessBackend timeout code o).spawnedProcess = true ∧
    (executeProcessBackend timeout code o).output =
      (if runPython timeout o = [] then noOutputMessage else runPython timeout o) := by
  refine ⟨rfl, ?_⟩
  by_cases h : runPython timeout o = []
  · simp [executeProcessBackend, handleDispatchResult, List.isEmpty_iff, h]
  · simp [executeProcessBackend, handleDispatchResult, List.isEmpty_iff, h]

/-- C8 counterexample: the language `"c"` is not mapped to the extension
`.c` — every language other than `"python"` gets `.js` — and no
enumerated-support error is produced: the sandbox is invoked anyway. -/
theorem extensionFor_c_counterexample :
    extensionFor "c".data = "js".data ∧ ("js".data : List Char) ≠ "c".data ∧
    (runHyperlight "c".data "c source text".data "w1".data "c1".data "/tmp".data
      (allOkWorld { success := true, error := none } "ran".data) []).sandboxInvoked
      = true := by
  exact ⟨by decide, by decide, rfl⟩

/-- C8 amended: the backend's language handling is the two-way split of
tools.py line 125: `"python"` maps to `.py` and every other language string
maps to `.js`; the workload filename carries that extension, and the
sandbox is invoked for every language value — there is no unsupported-
language error path. -/
theorem runHyperlight_language_mapping (language code u1 u2 tmp : List Char)
    (fs0 : List (List Char)) (result : SandboxResult) (raw : List Char) :
    (language = "python".data → extensionFor language = "py".data) ∧
    (language ≠ "python".data → extensionFor language = "js".data) ∧
    workloadPathOf tmp language u1 =
      workloadDirOf tmp ++ "/workload_".data ++ u1 ++ ".".data ++ extensionFor language ∧
    (runHyperlight language code u1 u2 tmp (allOkWorld result raw) fs0).sandboxInvoked
      = true := by
  refine ⟨fun h => by simp [extensionFor, h], fun h => by simp [extensionFor, h],
    rfl, rfl⟩

/-- Witness for C8's amended claim at `language = "python"`. -/
theorem runHyperlight_language_mapping_witness :
    extensionFor "python".data = "py".data :=
  (runHyperlight_language_mapping "python".data [] [] [] [] []
    { success := true, error := none } []).1 rfl

/-- One retry step of the tenacity loop: a failure whose message matches
the rate-limit pattern, with attempts remaining, moves to the next
attempt. -/
theorem retryAttempts_retry_step (stopAfter : Nat) (outcomes : Nat → CallOutcome)
    (a : Nat) (msg : List Char) (hf : outcomes a = .failure msg)
    (hm : isRateLimitMessage msg = true) (hlt : a < stopAfter) :
    retryAttempts stopAfter outcomes a = retryAttempts stopAfter outcomes (a + 1) := by
  rw [retryAttempts, hf]
  simp [hm, hlt]

/-- The loop stops and re-raises when the message does not match, or when
no attempts remain. -/
theorem retryAttempts_stop (stopAfter : Nat) (outcomes : Nat → CallOutcome)
    (a : Nat) (msg : List Char) (hf : outcomes a = .failure msg)
    (hstop : isRateLimitMessage msg = false ∨ ¬ a < stopAfter) :
    retryAttempts stopAfter outcomes a = (a, .error msg) := by
  rw [retryAttempts, hf]
  rcases hstop with h | h
  · simp [h]
  · simp [h]

/-- When every attempt fails with a matching message, the loop runs to
attempt `stopAfter` and re-raises the error of that last attempt. -/
theorem retryAttempts_exhausts (stopAfter : Nat) (outcomes : Nat → CallOutcome)
    (msgs : Nat → List Char) (hout : ∀ k, outcomes k = .failure (msgs k))
    (hmatch : ∀ k, isRateLimitMessage (msgs k) = true) :
    ∀ n a, stopAfter - a = n → a ≤ stopAfter →
      retryAttempts stopAfter outcomes a = (stopAfter, .error (msgs stopAfter)) := by
  intro n
  induction n with
  | zero =>
    intro a hn ha
    have haS : a = stopAfter := by omega
    subst haS
    exact retryAttempts_stop a outcomes a (msgs a) (hout a) (Or.inr (Nat.lt_irrefl a))
  | succ n ih =>
    intro a hn ha
    have hlt : a < stopAfter := by omega
    rw [retryAttempts_retry_step stopAfter outcomes a (msgs a) (hout a) (hmatch a) hlt]
    exact ih (a + 1) (by omega) hlt

/-- C4: the retry middleware retries exactly on messages matching the
anchored, case-insensitive rate-limit pattern.  A non-matching error
propagates on its first occurrence with no retry; an error that matches on
every attempt is re-raised after exactly `maxRetries + 1` total attempts;
a matching first failure (with retries remaining) does trigger a second
attempt; and the pattern matches only at the start of the message — a
message merely containing `429` later is not a match. -/
theorem middlewareProcess_retry_policy (m : Nat) (outcomes : Nat → CallOutcome)
    (msgs : Nat → List Char) :
    (∀ msg, outcomes 1 = .failure msg → isRateLimitMessage msg = false →
      middlewareProcess m outcomes = (1, .error msg)) ∧
    ((∀ k, outcomes k = .failure (msgs k)) →
      (∀ k, isRateLimitMessage (msgs k) = true) →
      middlewareProcess m outcomes = (m + 1, .error (msgs (m + 1)))) ∧
    (∀ msg, outcomes 1 = .failure msg → isRateLimitMessage msg = true → 1 ≤ m →
      middlewareProcess m outcomes = retryAttempts (m + 1) outcomes 2) ∧
    isRateLimitMessage "429 Too Many Requests".data = true ∧
    isRateLimitMessage "Too Many Requests: please slow down".data = true ∧
    isRateLimitMessage "Some other error".data = false ∧
    isRateLimitMessage "Error: 429 too many requests".data = false := by
  refine ⟨?_, ?_, ?_, by decide, by decide, by decide, by decide⟩
  · intro msg hf hm
    exact retryAttempts_stop (m + 1) outcomes 1 msg hf (Or.inl hm)
  · intro hout hmatch
    exact retryAttempts_exhausts (m + 1) outcomes msgs hout hmatch m 1 (by omega) (by omega)
  · intro msg hf hm h1
    exact retryAttempts_retry_step (m + 1) outcomes 1 msg hf hm (by omega)

/-- Witness for C4, mirroring the repository test
`test_gives_up_after_max_retries`: with `max_retries = 2` and every attempt
failing with `"429 Rate Limited"`, the call makes 3 attempts and re-raises. -/
theorem middlewareProcess_retry_policy_witness :
    middlewareProcess 2 (fun _ => CallOutcome.failure "429 Rate Limited".data) =
      (3, Except.error "429 Rate Limited".data) :=
  (middlewareProcess_retry_policy 2
      (fun _ => CallOutcome.failure "429 Rate Limited".data)
      (fun _ => "429 Rate Limited".data)).2.1 (fun _ => rfl) (fun _ => by decide)

/-- C9: the wait before retry `attempt` of `run_streaming_with_retry`
equals `min(minWait * 2^(attempt-1), maxWait)` plus a jitter term which is
nonnegative and at most 10% of that base value. -/
theorem streamingBackoffWait_formula (minWait maxWait : ℚ) (attempt : Nat) (u : ℚ)
    (hmin : 0 ≤ minWait) (hmax : 0 ≤ maxWait) (hu0 : 0 ≤ u) (hu1 : u ≤ 1) :
    streamingBackoffWait minWait maxWait attempt u =
      min (minWait * 2 ^ (attempt - 1)) maxWait
        + u * (min (minWait * 2 ^ (attempt - 1)) maxWait * (1 / 10)) ∧
    0 ≤ u * (min (minWait * 2 ^ (attempt - 1)) maxWait * (1 / 10)) ∧
    u * (min (minWait * 2 ^ (attempt - 1)) maxWait * (1 / 10))
      ≤ min (minWait * 2 ^ (attempt - 1)) maxWait * (1 / 10) := by
  have hbase : (0 : ℚ) ≤ min (minWait * 2 ^ (attempt - 1)) maxWait :=
    le_min (by positivity) hmax
  have htenth : (0 : ℚ) ≤ min (minWait * 2 ^ (attempt - 1)) maxWait * (1 / 10) :=
    mul_nonneg hbase (by norm_num)
  refine ⟨?_, mul_nonneg hu0 htenth, mul_le_of_le_one_left htenth hu1⟩
  simp [streamingBackoffWait, backoffBase, uniformDraw]

/-- Witness for C9 at `min_wait = 2`, `max_wait = 60`, attempt 3, draw 1/2:
the base wait is `min(2·2², 60) = 8` and the wait is `8 + 8/20`. -/
theorem streamingBackoffWait_formula_witness :
    streamingBackoffWait 2 60 3 (1 / 2) =
      min ((2 : ℚ) * 2 ^ (3 - 1)) 60
        + (1 / 2) * (min ((2 : ℚ) * 2 ^ (3 - 1)) 60 * (1 / 10)) :=
  (streamingBackoffWait_formula 2 60 3 (1 / 2) (by norm_num) (by norm_num)
    (by norm_num) (by norm_num)).1

end LocalCodeInterpreter
